import Mathlib

/-!
Verification of the change-detection and adaptive-notification pipeline of
`src/main.py` (a Telegram site-monitoring bot).  The Python classes
`UserPreferenceManager`, `AINotificationFilter`, `NotificationGrouper` and the
tail of `SmartMonitoringSystem.check_site` are shallowly embedded as pure Lean
functions.  Python dicts become association lists (preserving insertion-order
semantics), floats become rationals, fallible lookups become `Option`/`Except`,
and the per-user `user_preferences` database row becomes explicit state of type
`Option Prefs` (`none` = no row yet).  The `user_feedback` and
`notification_history` tables are write-only from the point of view of the
verified properties and are not modelled.
-/

set_option maxRecDepth 4096

/-- Lookup in an association list, mirroring Python `d[k]` / `d.get(k)`:
`none` corresponds to a missing key (`KeyError` for the bracket form). -/
def alookup {α : Type} (k : String) : List (String × α) → Option α
  | [] => none
  | (k₁, v) :: rest => if k = k₁ then some v else alookup k rest

/-- Assignment `d[k] = v` on an insertion-ordered dict: an existing key keeps
its position, a new key is appended at the end. -/
def aset {α : Type} (k : String) (v : α) : List (String × α) → List (String × α)
  | [] => [(k, v)]
  | (k₁, v₁) :: rest => if k = k₁ then (k₁, v) :: rest else (k₁, v₁) :: aset k v rest

/-- A learned `(category, importance)` pattern counter:
`\x7b'likes': ..., 'dislikes': ...\x7d` in `learning_data['learned_patterns']`. -/
structure Pattern where
  likes : Nat
  dislikes : Nat
  deriving DecidableEq

/-- The `learning_data` JSON blob of a `user_preferences` row. -/
structure LearningData where
  positive_feedback : Nat
  negative_feedback : Nat
  learned_patterns : List (String × Pattern)
  deriving DecidableEq

/-- A parsed `user_preferences` row, as returned by
`UserPreferenceManager.get_user_preferences`. -/
structure Prefs where
  preferred_categories : List String
  importance_weights : List (String × ℚ)
  notification_frequency : String
  learning_data : LearningData
  deriving DecidableEq

/-- The default preferences created on first access
(`UserPreferenceManager.get_user_preferences`, else-branch). -/
def default_prefs : Prefs :=
  { preferred_categories := ["content", "design", "technical"]
    importance_weights := [("content", 1), ("design", 7/10), ("technical", 3/10)]
    notification_frequency := "immediate"
    learning_data := { positive_feedback := 0, negative_feedback := 0, learned_patterns := [] } }

/-- `UserPreferenceManager.get_user_preferences`: returns the stored row if
present, otherwise persists and returns the defaults.  The pair is
(returned preferences, database state afterwards). -/
def get_user_preferences : Option Prefs → Prefs × Option Prefs
  | some p => (p, some p)
  | none => (default_prefs, some default_prefs)

/-- `pattern_key.split('_')[0]`: the prefix of the key before the first
underscore (the whole key when no underscore occurs). -/
def headSegment : List Char → List Char
  | [] => []
  | c :: cs => if c = '_' then [] else c :: headSegment cs

/-- The category extracted from a learned-pattern key in
`UserPreferenceManager.adjust_importance_weights`. -/
def categoryOfKey (key : String) : String :=
  String.mk (headSegment key.data)

/-- The `for pattern_key, feedback in learning_data['learned_patterns'].items()`
loop of `adjust_importance_weights`, acting on the weights dict.  `none`
models the `KeyError` raised by `weights[category]` when the category is
absent from the weight map. -/
def adjust_loop : List (String × Pattern) → List (String × ℚ) → Option (List (String × ℚ))
  | [], weights => some weights
  | (key, fb) :: rest, weights =>
    let category := categoryOfKey key
    let total := fb.likes + fb.dislikes
    if 3 ≤ total then
      let frac : ℚ := (fb.likes : ℚ) / ((total : ℕ) : ℚ)
      if 7/10 < frac then
        match alookup category weights with
        | none => none
        | some wc => adjust_loop rest (aset category (min 1 (wc + 1/10)) weights)
      else if frac < 3/10 then
        match alookup category weights with
        | none => none
        | some wc => adjust_loop rest (aset category (max (1/10) (wc - 1/10)) weights)
      else adjust_loop rest weights
    else adjust_loop rest weights

/-- `UserPreferenceManager.adjust_importance_weights`: re-fetches the
preferences from the store, runs the adjustment loop over the given learning
data, and persists the row with the new weights.  `Except.error st` models a
`KeyError` escaping with the database left in state `st`. -/
def adjust_importance_weights (st : Option Prefs) (ld : LearningData) :
    Except (Option Prefs) (Option Prefs) :=
  let pr := get_user_preferences st
  match adjust_loop ld.learned_patterns pr.1.importance_weights with
  | none => .error pr.2
  | some w => .ok (some { pr.1 with importance_weights := w })

/-- The pure computation of the updated `learning_data` performed by
`UserPreferenceManager.update_learning_model` before it calls
`adjust_importance_weights`: global like/dislike counters, creation of the
missing pattern entry, and the per-pattern counter bump. -/
def new_learning_data (prefs : Prefs) (feedback_type category importance : String) :
    LearningData :=
  let ld := prefs.learning_data
  let ld :=
    if feedback_type = "like" then
      { ld with positive_feedback := ld.positive_feedback + 1 }
    else if feedback_type = "dislike" ∨ feedback_type = "dismiss" then
      { ld with negative_feedback := ld.negative_feedback + 1 }
    else ld
  let key := category ++ "_" ++ importance
  let pats :=
    if (alookup key ld.learned_patterns).isNone then
      ld.learned_patterns ++ [(key, { likes := 0, dislikes := 0 })]
    else ld.learned_patterns
  let pats :=
    if feedback_type = "like" then
      match alookup key pats with
      | some fb => aset key { fb with likes := fb.likes + 1 } pats
      | none => pats
    else if feedback_type = "dislike" ∨ feedback_type = "dismiss" then
      match alookup key pats with
      | some fb => aset key { fb with dislikes := fb.dislikes + 1 } pats
      | none => pats
    else pats
  { ld with learned_patterns := pats }

/-- `UserPreferenceManager.update_learning_model`.  Note the final
`update_user_preferences(user_id, prefs)` writes the `prefs` dict fetched at
the top of the function (carrying the pre-adjustment weights) with only its
`learning_data` replaced, overwriting the row that
`adjust_importance_weights` just persisted. -/
def update_learning_model (st : Option Prefs) (feedback_type category importance : String) :
    Except (Option Prefs) (Option Prefs) :=
  let pr := get_user_preferences st
  let ld := new_learning_data pr.1 feedback_type category importance
  match adjust_importance_weights pr.2 ld with
  | .error stE => .error stE
  | .ok _ => .ok (some { pr.1 with learning_data := ld })

/-- `UserPreferenceManager.record_feedback` restricted to its effect on the
`user_preferences` row: the inserts into `user_feedback` and
`notification_history` touch other tables and are not modelled. -/
def record_feedback (st : Option Prefs) (feedback_type category importance : String) :
    Except (Option Prefs) (Option Prefs) :=
  update_learning_model st feedback_type category importance

/-- One feedback event as processed by the system; an escaping `KeyError` is
caught by the bot's callback handler, so the database state simply persists. -/
def feedback_step (st : Option Prefs) (e : String × String × String) : Option Prefs :=
  match record_feedback st e.1 e.2.1 e.2.2 with
  | .ok s => s
  | .error s => s

/-- A finite sequence of feedback events. -/
def run_feedback (st : Option Prefs) (events : List (String × String × String)) :
    Option Prefs :=
  events.foldl feedback_step st

/-- The importance-weight map of the stored row (empty when no row exists). -/
def stored_weights : Option Prefs → List (String × ℚ)
  | some p => p.importance_weights
  | none => []

/-- Whether a feedback event raises a `KeyError` out of `record_feedback`. -/
def feedback_raises (st : Option Prefs) (feedback_type category importance : String) : Bool :=
  match record_feedback st feedback_type category importance with
  | .error _ => true
  | .ok _ => false

/-- Preferences whose `content` weight starts at 0.7, the initial state of the
spec's five-likes scenario. -/
def prefs07 : Prefs :=
  { preferred_categories := ["content", "design", "technical"]
    importance_weights := [("content", 7/10), ("design", 7/10), ("technical", 3/10)]
    notification_frequency := "immediate"
    learning_data := { positive_feedback := 0, negative_feedback := 0, learned_patterns := [] } }

/-- Five consecutive like events on (content, high). -/
def five_likes : List (String × String × String) :=
  List.replicate 5 ("like", "content", "high")

/-- Two like events on (commerce, high), a category outside the default
weight map. -/
def commerce_likes_2 : List (String × String × String) :=
  [("like", "commerce", "high"), ("like", "commerce", "high")]

/-- C1: For every feedback event, after record_feedback completes the persisted
importance weights satisfy the spec's adjustment rule; in particular 5
consecutive likes on (content, high) from weight 0.7 raise the persisted
content weight to 0.8 once the pattern reaches 3 samples.  The code violates
this: `update_learning_model` re-persists the preference dict it fetched
before the adjustment pass, overwriting the adjusted weights, so after 5
likes the persisted content weight is still 0.7 (and 0.7 is not the claimed
0.8). -/
theorem record_feedback_weight_adjustment_lost :
    alookup "content" (stored_weights (run_feedback (some prefs07) five_likes))
      = some (7/10) ∧ (7/10 : ℚ) ≠ 8/10 := by
  norm_num +decide [run_feedback, five_likes, List.replicate, feedback_step, record_feedback,
    update_learning_model, new_learning_data, adjust_importance_weights, adjust_loop,
    get_user_preferences, alookup, aset, categoryOfKey, headSegment, stored_weights,
    prefs07, min_def, max_def]

/-- Sanity check used nowhere else: the adjustment pass alone, applied to the
five-likes learning state, does produce the 0.8 the spec expects, which the
final stale write then discards. -/
theorem adjust_pass_alone_would_raise_weight :
    alookup "content"
        (match adjust_importance_weights (some prefs07)
            { positive_feedback := 3, negative_feedback := 0,
              learned_patterns := [("content_high", { likes := 3, dislikes := 0 })] } with
          | .ok st => stored_weights st
          | .error st => stored_weights st)
      = some (8/10) := by
  norm_num +decide [adjust_importance_weights, adjust_loop, get_user_preferences,
    alookup, aset, categoryOfKey, headSegment, stored_weights, prefs07, min_def]

/-- C9: the weight-adjustment pass is total only when every learned-pattern
category is a key of the weight map: three like events on (commerce, high)
from the default preferences make the pattern reach 3 samples, at which
point `weights['commerce']` raises `KeyError` and the feedback update is
aborted, leaving the stored row exactly as before the third event. -/
theorem pattern_category_key_error :
    feedback_raises (run_feedback (some default_prefs) commerce_likes_2)
        "like" "commerce" "high" = true ∧
    feedback_step (run_feedback (some default_prefs) commerce_likes_2)
        ("like", "commerce", "high")
      = run_feedback (some default_prefs) commerce_likes_2 := by
  norm_num +decide [run_feedback, commerce_likes_2, feedback_step, record_feedback,
    update_learning_model, new_learning_data, adjust_importance_weights, adjust_loop,
    get_user_preferences, alookup, aset, categoryOfKey, headSegment, feedback_raises,
    default_prefs, min_def, max_def]

/-- The net effect of one feedback event on an existing row: the stored
learned patterns change, but the stored importance weights do not.  On the
success path the final `update_user_preferences` writes the pre-adjustment
weights back; on the `KeyError` path the adjustment loop aborts before the
row is rewritten. -/
theorem feedback_step_some (p : Prefs) (e : String × String × String) :
    ∃ p', feedback_step (some p) e = some p' ∧
      p'.importance_weights = p.importance_weights := by
  simp only [feedback_step, record_feedback, update_learning_model,
    adjust_importance_weights, get_user_preferences]
  cases h : adjust_loop (new_learning_data p e.1 e.2.1 e.2.2).learned_patterns
      p.importance_weights with
  | none => exact ⟨p, by simp [h], rfl⟩
  | some w =>
      exact ⟨{ p with learning_data := new_learning_data p e.1 e.2.1 e.2.2 },
        by simp [h], rfl⟩

/-- Over any finite event sequence the stored importance-weight map of an
existing row is left exactly as it started. -/
theorem run_feedback_weights (events : List (String × String × String)) (p : Prefs) :
    ∃ p', run_feedback (some p) events = some p' ∧
      p'.importance_weights = p.importance_weights := by
  induction events generalizing p with
  | nil => exact ⟨p, rfl, rfl⟩
  | cons e es ih =>
      obtain ⟨p₁, h₁, hw₁⟩ := feedback_step_some p e
      obtain ⟨p₂, h₂, hw₂⟩ := ih p₁
      refine ⟨p₂, ?_, hw₂.trans hw₁⟩
      simpa [run_feedback, h₁] using h₂

/-- C6: for every user whose importance weights all start in [0.1, 1.0] and
whose learned-pattern categories are keys of the weight map, after any
finite sequence of feedback events every persisted importance weight
remains in [0.1, 1.0].  (In this code the weights are in fact bitwise
unchanged: the adjustment pass's write is always overwritten.) -/
theorem feedback_weights_stay_clamped (p : Prefs)
    (events : List (String × String × String))
    (hw : ∀ kv ∈ p.importance_weights, 1/10 ≤ kv.2 ∧ kv.2 ≤ 1)
    (_hk : ∀ kf ∈ p.learning_data.learned_patterns,
      categoryOfKey kf.1 ∈ p.importance_weights.map Prod.fst) :
    ∀ kv ∈ stored_weights (run_feedback (some p) events), 1/10 ≤ kv.2 ∧ kv.2 ≤ 1 := by
  obtain ⟨p', h, hw'⟩ := run_feedback_weights events p
  rw [h]
  intro kv hkv
  exact hw kv (by simpa [stored_weights, hw'] using hkv)

/-- Witness for C6 at the default preferences and a single like event: the
content weight 1.0 of the resulting row is within the clamp bounds. -/
theorem feedback_weights_stay_clamped_witness : 1/10 ≤ (1 : ℚ) ∧ (1 : ℚ) ≤ 1 :=
  feedback_weights_stay_clamped default_prefs [("like", "content", "high")]
    (by norm_num [default_prefs]) (by simp [default_prefs]) ("content", 1)
    (by norm_num +decide [run_feedback, feedback_step, record_feedback,
      update_learning_model, new_learning_data, adjust_importance_weights, adjust_loop,
      get_user_preferences, alookup, aset, categoryOfKey, headSegment, stored_weights,
      default_prefs])

/-- When every pattern with at least 3 total events has a like fraction inside
the dead zone, the adjustment loop touches no weight: neither the increase
branch nor the decrease branch is taken, so the weights dict is returned as
it was. -/
theorem adjust_loop_dead_zone (pats : List (String × Pattern))
    (weights : List (String × ℚ))
    (h : ∀ kf ∈ pats, 3 ≤ kf.2.likes + kf.2.dislikes →
      3/10 ≤ (kf.2.likes : ℚ) / ((kf.2.likes + kf.2.dislikes : ℕ) : ℚ) ∧
      (kf.2.likes : ℚ) / ((kf.2.likes + kf.2.dislikes : ℕ) : ℚ) ≤ 7/10) :
    adjust_loop pats weights = some weights := by
  induction pats with
  | nil => rfl
  | cons kf rest ih =>
      obtain ⟨key, fb⟩ := kf
      have hrest : ∀ kf ∈ rest, 3 ≤ kf.2.likes + kf.2.dislikes →
          3/10 ≤ (kf.2.likes : ℚ) / ((kf.2.likes + kf.2.dislikes : ℕ) : ℚ) ∧
          (kf.2.likes : ℚ) / ((kf.2.likes + kf.2.dislikes : ℕ) : ℚ) ≤ 7/10 :=
        fun kf hkf => h kf (List.mem_cons_of_mem _ hkf)
      by_cases htot : 3 ≤ fb.likes + fb.dislikes
      · obtain ⟨hlo, hhi⟩ := h (key, fb) (List.mem_cons_self _ _) htot
        simp only [adjust_loop, if_pos htot, not_lt.mpr hhi, if_neg,
          not_lt.mpr hlo, ite_false]
        · exact ih hrest
      · simp only [adjust_loop, if_neg htot]
        exact ih hrest

/-- C8: weight adjustment is a no-op inside the dead zone: when every learned
pattern with total feedback count at least 3 has a like-ratio in [0.3, 0.7],
the weight-adjustment pass leaves every importance weight (indeed the whole
stored row) unchanged. -/
theorem adjust_weights_dead_zone_noop (p : Prefs) (ld : LearningData)
    (h : ∀ kf ∈ ld.learned_patterns, 3 ≤ kf.2.likes + kf.2.dislikes →
      3/10 ≤ (kf.2.likes : ℚ) / ((kf.2.likes + kf.2.dislikes : ℕ) : ℚ) ∧
      (kf.2.likes : ℚ) / ((kf.2.likes + kf.2.dislikes : ℕ) : ℚ) ≤ 7/10) :
    adjust_importance_weights (some p) ld = .ok (some p) := by
  simp only [adjust_importance_weights, get_user_preferences]
  rw [adjust_loop_dead_zone ld.learned_patterns p.importance_weights h]

/-- A learning state sitting inside the dead zone: 1 like, 2 dislikes. -/
def dead_zone_ld : LearningData :=
  { positive_feedback := 1, negative_feedback := 2,
    learned_patterns := [("content_high", { likes := 1, dislikes := 2 })] }

/-- Witness for C8: the dead-zone pass on the default preferences with a
1-like/2-dislike pattern returns the row unchanged. -/
theorem adjust_weights_dead_zone_noop_witness :
    adjust_importance_weights (some default_prefs) dead_zone_ld = .ok (some default_prefs) :=
  adjust_weights_dead_zone_noop default_prefs dead_zone_ld (by
    intro kf hkf _
    rw [dead_zone_ld] at hkf
    simp only [List.mem_singleton] at hkf
    subst hkf
    norm_num)

/-- The analysis dict fields consulted by
`UserPreferenceManager.should_send_notification`; `none` models a missing
key (`change_analysis.get(...)` returning `None`). -/
structure ChangeAnalysis where
  category : Option String
  importance : Option String
  deriving DecidableEq

/-- The literal dict `\x7b'high': 1.0, 'medium': 0.5, 'low': 0.2\x7d` indexed by
`[importance]`; `none` models the `KeyError` on any other importance. -/
def base_importance_score (importance : String) : Option ℚ :=
  if importance = "high" then some 1
  else if importance = "medium" then some (1/2)
  else if importance = "low" then some (1/5)
  else none

/-- `UserPreferenceManager.should_send_notification`.  The first component is
the returned boolean (`none` = a `KeyError` on the base-importance dict);
the second is the database state after the internal
`get_user_preferences` call. -/
def should_send_notification (st : Option Prefs) (a : ChangeAnalysis) :
    Option Bool × Option Prefs :=
  let pr := get_user_preferences st
  match a.category with
  | none => (some false, pr.2)
  | some cat =>
    if cat ∈ pr.1.preferred_categories then
      match base_importance_score (a.importance.getD "medium") with
      | none => (none, pr.2)
      | some base =>
        let w := (alookup cat pr.1.importance_weights).getD (1/2)
        (some (decide (3/10 ≤ base * w)), pr.2)
    else (some false, pr.2)

/-- C3: for an analysis whose importance is one of high/medium/low (so the
base-importance lookup yields `b`) and whose category has weight `w` in the
user's map, `should_send_notification` returns `False` when the category is
outside the preferred set, and otherwise returns `True` exactly when
`b * w >= 0.3`. -/
theorem should_send_notification_spec (p : Prefs) (a : ChangeAnalysis)
    (cat i : String) (b w : ℚ)
    (hcat : a.category = some cat)
    (himp : a.importance = some i)
    (hb : base_importance_score i = some b)
    (hw : alookup cat p.importance_weights = some w) :
    (cat ∉ p.preferred_categories →
      (should_send_notification (some p) a).1 = some false) ∧
    (cat ∈ p.preferred_categories →
      ((should_send_notification (some p) a).1 = some true ↔ 3/10 ≤ b * w)) := by
  simp only [should_send_notification, get_user_preferences, hcat, himp,
    Option.getD_some, hb, hw]
  constructor
  · intro hmem
    rw [if_neg hmem]
  · intro hmem
    rw [if_pos hmem]
    simp

/-- A (content, high) analysis used to instantiate C3. -/
def analysis_content_high : ChangeAnalysis :=
  { category := some "content", importance := some "high" }

/-- Witness for C3: the default user accepts a (content, high) analysis, whose
score 1.0 * 1.0 clears the 0.3 threshold. -/
theorem should_send_notification_spec_witness :
    (should_send_notification (some default_prefs) analysis_content_high).1 = some true := by
  have h := should_send_notification_spec default_prefs analysis_content_high
    "content" "high" 1 1 rfl rfl (by norm_num [base_importance_score])
    (by norm_num +decide [alookup, default_prefs])
  exact (h.2 (by simp [default_prefs])).mpr (by norm_num)

/-- Looking a key up right after assigning it yields the assigned value. -/
theorem alookup_aset_self {α : Type} (k : String) (v : α) (m : List (String × α)) :
    alookup k (aset k v m) = some v := by
  induction m with
  | nil => simp [aset, alookup]
  | cons kv rest ih =>
      by_cases hk : k = kv.1
      · simp [aset, hk, alookup]
      · simp [aset, hk, alookup, ih]

/-- The three base-importance values are nonnegative. -/
theorem base_importance_score_nonneg (i : String) (b : ℚ)
    (hb : base_importance_score i = some b) : 0 ≤ b := by
  unfold base_importance_score at hb
  split at hb
  · cases hb; norm_num
  · split at hb
    · cases hb; norm_num
    · split at hb
      · cases hb; norm_num
      · cases hb

/-- C7: `should_send_notification` is monotonic in the category weight: if the
user accepts an analysis with weight `w` on its category, the user still
accepts after that weight is raised to any `w' > w`, the preferred set and
the importance being unchanged. -/
theorem should_send_monotone_in_weight (p : Prefs) (a : ChangeAnalysis)
    (cat i : String) (b w w' : ℚ)
    (hcat : a.category = some cat)
    (himp : a.importance = some i)
    (hb : base_importance_score i = some b)
    (hw : alookup cat p.importance_weights = some w)
    (hlt : w < w')
    (hacc : (should_send_notification (some p) a).1 = some true) :
    (should_send_notification
        (some { p with importance_weights := aset cat w' p.importance_weights }) a).1
      = some true := by
  have hb0 : 0 ≤ b := base_importance_score_nonneg i b hb
  by_cases hmem : cat ∈ p.preferred_categories
  · have hscore : 3/10 ≤ b * w :=
      ((should_send_notification_spec p a cat i b w hcat himp hb hw).2 hmem).mp hacc
    have hw' : alookup cat (aset cat w' p.importance_weights) = some w' :=
      alookup_aset_self cat w' p.importance_weights
    have h2 := should_send_notification_spec
      { p with importance_weights := aset cat w' p.importance_weights }
      a cat i b w' hcat himp hb hw'
    exact (h2.2 hmem).mpr (hscore.trans (by nlinarith))
  · have := (should_send_notification_spec p a cat i b w hcat himp hb hw).1 hmem
    rw [hacc] at this
    cases this

/-- A (technical, high) analysis used to instantiate C7. -/
def analysis_technical_high : ChangeAnalysis :=
  { category := some "technical", importance := some "high" }

/-- Witness for C7: the default user accepts (technical, high) at weight 0.3;
raising the technical weight to 1 keeps the accept. -/
theorem should_send_monotone_in_weight_witness :
    (should_send_notification
        (some { default_prefs with
                importance_weights := aset "technical" 1 default_prefs.importance_weights })
        analysis_technical_high).1 = some true := by
  refine should_send_monotone_in_weight default_prefs analysis_technical_high
    "technical" "high" 1 (3/10) 1 rfl rfl (by norm_num [base_importance_score])
    (by norm_num +decide [alookup, default_prefs]) (by norm_num) ?_
  norm_num +decide [should_send_notification, get_user_preferences, default_prefs,
    alookup, base_importance_score, analysis_technical_high]

/-- A pending notification dict as built by
`SmartNotificationSystem.process_change` (regular) or by
`NotificationGrouper._create_summary_notification` (summary).  Fields a
given dict does not carry in Python are defaulted. -/
structure Notification where
  site_name : String
  category : String
  importance : String
  title : String
  message : String
  is_summary : Bool := false
  detailed_changes : List String := []
  personalized_summary : String := ""
  notification_id : String := ""
  deriving DecidableEq, Inhabited

/-- The grouping key `f"\x7bnotification['category']\x7d_\x7bnotification['site_name']\x7d"`. -/
def group_key (n : Notification) : String :=
  n.category ++ "_" ++ n.site_name

/-- `grouped[key].append(notification)` on a `defaultdict(list)`: keys keep
first-appearance order, appends go to the existing entry. -/
def group_insert (key : String) (n : Notification) :
    List (String × List Notification) → List (String × List Notification)
  | [] => [(key, [n])]
  | (k, g) :: rest =>
      if key = k then (k, g ++ [n]) :: rest else (k, g) :: group_insert key n rest

/-- The grouping loop of `NotificationGrouper.get_grouped_notifications`. -/
def group_by_key (ns : List Notification) : List (String × List Notification) :=
  ns.foldl (fun acc n => group_insert (group_key n) n acc) []

/-- Python `max` over a nonempty iterable of strings: lexicographic maximum,
like string comparison in Python (by code point). -/
def py_max_string : List String → String
  | [] => ""
  | s :: rest => rest.foldl (fun m x => if m < x then x else m) s

/-- The title built by `_create_summary_notification`. -/
def summary_title (count : Nat) (site : String) : String :=
  "🔔 " ++ toString count ++ " обновлений на " ++ site

/-- `NotificationGrouper._create_summary_notification`.  The
`datetime.now()`-based `notification_id` suffix and `timestamp` field are
time-dependent and not modelled. -/
def create_summary_notification (ns : List Notification) : Notification :=
  let main := ns.headD default
  { site_name := main.site_name
    category := main.category
    importance := py_max_string (ns.map Notification.importance)
    title := summary_title ns.length main.site_name
    message := "За последнее время произошло " ++ toString ns.length
      ++ " изменений в категории " ++ main.category ++ "."
    is_summary := true
    detailed_changes := ns.map Notification.personalized_summary
    notification_id := "summary_" }

/-- The per-group pass-through-or-summarize step of
`get_grouped_notifications`. -/
def group_emit (kg : String × List Notification) : Notification :=
  if kg.2.length = 1 then kg.2.headD default else create_summary_notification kg.2

/-- `NotificationGrouper.get_grouped_notifications` for one user: the returned
sequence (the cleared pending queue is the emptied list, not modelled
further since the claims are about the output). -/
def get_grouped_notifications (pending : List Notification) : List Notification :=
  match pending with
  | [] => []
  | _ => (group_by_key pending).map group_emit

/-- A high-importance pending notification on (content, example.com). -/
def note_high : Notification :=
  { site_name := "example.com", category := "content", importance := "high",
    title := "t1", message := "m1", personalized_summary := "s1",
    notification_id := "n1" }

/-- A low-importance pending notification with the same (content, example.com)
key. -/
def note_low : Notification :=
  { site_name := "example.com", category := "content", importance := "low",
    title := "t2", message := "m2", personalized_summary := "s2",
    notification_id := "n2" }

/-- Counterexample to C2 as stated: flushing a queue holding a high- and a
low-importance notification with the same (category, site) key produces one
summary whose importance is "low" — Python's `max` compares the importance
strings lexicographically ("high" < "low" < "medium"), not under the claimed
ordering high > medium > low, which would demand "high". -/
theorem grouped_importance_lex_counterexample :
    (get_grouped_notifications [note_high, note_low]).map Notification.importance
      = ["low"] ∧ ("low" : String) ≠ "high" := by
  constructor
  · simp +decide [get_grouped_notifications, group_by_key, group_insert, group_key,
      group_emit, create_summary_notification, py_max_string, note_high, note_low,
      List.foldl]
  · decide

/-- Every entry of `zip l (l.map f)` pairs an element with its image. -/
theorem zip_map_snd {α β : Type} (f : α → β) (l : List α) :
    ∀ pr ∈ l.zip (l.map f), pr.2 = f pr.1 := by
  induction l with
  | nil => simp
  | cons a t ih =>
      intro pr hpr
      simp only [List.map_cons, List.zip_cons_cons, List.mem_cons] at hpr
      rcases hpr with h | h
      · subst h; rfl
      · exact ih pr h

/-- C2 amended: flushing a nonempty queue yields exactly one notification per
distinct grouping key (in first-appearance order); a key with a single
pending notification passes through unchanged, and a key with N >= 2
notifications yields one summary whose importance is the lexicographic
maximum of the group's importance strings, whose title states the count N,
and whose detail list has one entry per original personalized summary. -/
theorem grouper_flush_grouped (pending : List Notification) (h : pending ≠ []) :
    (get_grouped_notifications pending).length = (group_by_key pending).length ∧
    ∀ pr ∈ (group_by_key pending).zip (get_grouped_notifications pending),
      (pr.1.2.length = 1 → pr.2 = pr.1.2.headD default) ∧
      (2 ≤ pr.1.2.length →
        pr.2.is_summary = true ∧
        pr.2.importance = py_max_string (pr.1.2.map Notification.importance) ∧
        pr.2.title = summary_title pr.1.2.length (pr.1.2.headD default).site_name ∧
        pr.2.detailed_changes.length = pr.1.2.length) := by
  have hout : get_grouped_notifications pending = (group_by_key pending).map group_emit := by
    cases pending with
    | nil => exact absurd rfl h
    | cons a t => rfl
  rw [hout]
  refine ⟨List.length_map _ _, ?_⟩
  intro pr hpr
  have hemit : pr.2 = group_emit pr.1 := zip_map_snd group_emit (group_by_key pending) pr hpr
  constructor
  · intro h1
    rw [hemit, group_emit, if_pos h1]
  · intro h2
    have hne : ¬ pr.1.2.length = 1 := by omega
    rw [hemit, group_emit, if_neg hne]
    refine ⟨rfl, rfl, rfl, ?_⟩
    exact List.length_map _ _

/-- Witness for C2 as amended, on the two-notification queue: the group has
two members, the summary importance is the lexicographic maximum "low", the
title counts 2 updates, and the detail list has 2 entries. -/
theorem grouper_flush_grouped_witness :
    (create_summary_notification [note_high, note_low]).is_summary = true ∧
    (create_summary_notification [note_high, note_low]).importance
      = py_max_string ([note_high, note_low].map Notification.importance) ∧
    (create_summary_notification [note_high, note_low]).title
      = summary_title ([note_high, note_low].length)
          (([note_high, note_low].headD default).site_name) ∧
    (create_summary_notification [note_high, note_low]).detailed_changes.length
      = [note_high, note_low].length := by
  have h := (grouper_flush_grouped [note_high, note_low] (by simp)).2
    (("content_example.com", [note_high, note_low]),
      group_emit ("content_example.com", [note_high, note_low]))
    (by simp +decide [group_by_key, group_insert, group_key, note_high, note_low,
      List.foldl, get_grouped_notifications, group_emit])
  have h2 := h.2 (by simp)
  simp only [group_emit, create_summary_notification] at h2
  exact h2

/-- The change dict handed to `AINotificationFilter.analyze_change_importance`
(site info merged with the change data). -/
structure ChangeInput where
  site_name : String
  url : String
  change_type : String
  diff : String
  deriving DecidableEq

/-- The analysis dict produced by `AINotificationFilter`. -/
structure AnalysisResult where
  category : String
  importance : String
  personal_importance_score : ℚ
  key_aspects : List String
  should_notify : Bool
  reasoning : String
  personalized_summary : String
  deriving DecidableEq

/-- The record built by `AINotificationFilter._basic_analysis` for a given
category/importance pair. -/
def basic_result (cd : ChangeInput) (category importance : String) : AnalysisResult :=
  { category := category
    importance := importance
    personal_importance_score := 1/2
    key_aspects := ["Изменения размером " ++ toString cd.diff.length ++ " символов"]
    should_notify := true
    reasoning := "Базовый анализ на основе размера изменений"
    personalized_summary := "Обнаружены изменения на сайте " ++ cd.site_name }

/-- `AINotificationFilter._basic_analysis`: the deterministic local heuristic
graded purely by the length of the diff string. -/
def basic_analysis (cd : ChangeInput) : AnalysisResult :=
  let change_size := cd.diff.length
  if 2000 < change_size then basic_result cd "content" "high"
  else if 500 < change_size then basic_result cd "design" "medium"
  else basic_result cd "technical" "low"

/-- `AINotificationFilter.analyze_change_importance`.  The external call is
modelled by `api_response`: `some r` is a successful, well-parsed response,
`none` is any failure (timeout, HTTP error, malformed JSON), which the
`except` clause turns into the local fallback.  With no API key configured
the call is never attempted. -/
def analyze_change_importance (api_key : Option String)
    (api_response : Option AnalysisResult) (cd : ChangeInput) : AnalysisResult :=
  match api_key with
  | none => basic_analysis cd
  | some _ =>
    match api_response with
    | some r => r
    | none => basic_analysis cd

/-- C5: with no API key configured, `analyze_change_importance` is exactly the
local heuristic, whatever the (never-consulted) external service would have
said: diff length > 2000 gives (content, high), > 500 gives
(design, medium), otherwise (technical, low); the function is total, so it
never raises. -/
theorem analyze_without_api_key_is_heuristic (api_response : Option AnalysisResult)
    (cd : ChangeInput) :
    analyze_change_importance none api_response cd = basic_analysis cd ∧
    (analyze_change_importance none api_response cd).category
      = (if 2000 < cd.diff.length then "content"
         else if 500 < cd.diff.length then "design" else "technical") ∧
    (analyze_change_importance none api_response cd).importance
      = (if 2000 < cd.diff.length then "high"
         else if 500 < cd.diff.length then "medium" else "low") := by
  refine ⟨rfl, ?_, ?_⟩ <;>
    · simp only [analyze_change_importance, basic_analysis]
      split
      · rfl
      · split <;> rfl

/-- A monitored-site row (`monitored_sites` table) with the fields consulted by
the check pipeline; times are minutes on an abstract clock. -/
structure SiteRow where
  id : Nat
  user_id : Nat
  url : String
  site_name : String
  last_hash : Option String
  last_content : Option String
  check_interval : Nat
  last_checked : Option Nat
  deriving DecidableEq

/-- A change payload as assembled in `check_site` for
`SmartNotificationSystem.process_change`. -/
structure ChangesData where
  diff : String
  old_content : String
  new_content : String
  change_type : String
  deriving DecidableEq

/-- The outcome of one `check_site` run: the stored row afterwards, the change
scheduled for notification (if any), and the `record_error` calls made. -/
structure CheckOutcome where
  site : SiteRow
  change : Option ChangesData
  errors : List (String × String)
  deriving DecidableEq

/-- `DatabaseManager.update_site_hash`: stores the new hash, the content
truncated to 100000 characters, and the check time. -/
def update_site_hash (site : SiteRow) (now : Nat) (current_hash content : String) :
    SiteRow :=
  { site with last_hash := some current_hash
              last_content := some (content.take 100000)
              last_checked := some now }

/-- The tail of `SmartMonitoringSystem.check_site` after fetch and text
extraction succeeded, starting from the normalized text.  `md5` abstracts
`hashlib.md5(...).hexdigest()` and `diffFn` abstracts the
`difflib.unified_diff` of the two split texts, truncated to 5000 characters
as in the source.  A stored empty-string hash is falsy in Python, hence the
explicit check. -/
def check_site_normalized (md5 : String → String) (diffFn : String → String → String)
    (now : Nat) (site : SiteRow) (text : String) : CheckOutcome :=
  if text.length < 50 then { site := site, change := none, errors := [] }
  else
    let current_hash := md5 text
    let change :=
      match site.last_hash with
      | some h =>
          if h ≠ "" ∧ current_hash ≠ h then
            some { diff := (diffFn (site.last_content.getD "") text).take 5000
                   old_content := site.last_content.getD ""
                   new_content := text
                   change_type := "content_update" }
          else none
      | none => none
    { site := update_site_hash site now current_hash text
      change := change
      errors := [] }

/-- The due-site filter of `DatabaseManager.get_all_monitored_sites`: never
checked, or last checked more than `check_interval` minutes ago. -/
def is_due (now : Nat) (s : SiteRow) : Bool :=
  match s.last_checked with
  | none => true
  | some t => decide (t + s.check_interval < now)

/-- C4: the first check of a newly added site (no stored fingerprint) with
normalized text of at least 50 characters emits no change record (so no
notification can be triggered), yet stores the digest of the observed text
as the new fingerprint and sets the check time. -/
theorem first_check_baseline_only (md5 : String → String)
    (diffFn : String → String → String) (now : Nat) (site : SiteRow) (text : String)
    (hfirst : site.last_hash = none) (hlen : 50 ≤ text.length) :
    (check_site_normalized md5 diffFn now site text).change = none ∧
    (check_site_normalized md5 diffFn now site text).site.last_hash = some (md5 text) ∧
    (check_site_normalized md5 diffFn now site text).site.last_checked = some now := by
  have hnot : ¬ text.length < 50 := not_lt.mpr hlen
  simp [check_site_normalized, hnot, hfirst, update_site_hash]

/-- A stand-in hash oracle for witnesses. -/
def md5_model (s : String) : String := "h" ++ toString s.length

/-- A stand-in diff oracle for witnesses. -/
def diff_model (old new : String) : String := old ++ "/" ++ new

/-- A freshly added site: no fingerprint, no content, never checked. -/
def fresh_site : SiteRow :=
  { id := 1, user_id := 42, url := "https://example.com",
    site_name := "example.com", last_hash := none, last_content := none,
    check_interval := 10, last_checked := none }

/-- A 50-character normalized text. -/
def text_50 : String := "zzzzzzzzzzzzzzzzzzzzzzzzzzzzzzzzzzzzzzzzzzzzzzzzzz"

/-- Witness for C4 on a concrete fresh site and a 50-character text. -/
theorem first_check_baseline_only_witness :
    (check_site_normalized md5_model diff_model 30 fresh_site text_50).change = none ∧
    (check_site_normalized md5_model diff_model 30 fresh_site text_50).site.last_hash
      = some (md5_model text_50) ∧
    (check_site_normalized md5_model diff_model 30 fresh_site text_50).site.last_checked
      = some 30 :=
  first_check_baseline_only md5_model diff_model 30 fresh_site text_50 rfl (by decide)

/-- C10: when the page normalizes to fewer than 50 characters, `check_site`
returns before any database write: the stored row (hash, content and check
time alike) is untouched and no `check_errors` record is written; since
`last_checked` does not advance, a site that was due stays due on every
later scan. -/
theorem short_text_check_changes_nothing (md5 : String → String)
    (diffFn : String → String → String) (now : Nat) (site : SiteRow) (text : String)
    (hshort : text.length < 50) :
    (check_site_normalized md5 diffFn now site text).site = site ∧
    (check_site_normalized md5 diffFn now site text).change = none ∧
    (check_site_normalized md5 diffFn now site text).errors = [] ∧
    (is_due now site = true → ∀ later, now ≤ later →
      is_due later (check_site_normalized md5 diffFn now site text).site = true) := by
  have hout : check_site_normalized md5 diffFn now site text
      = { site := site, change := none, errors := [] } := by
    simp [check_site_normalized, hshort]
  refine ⟨by rw [hout], by rw [hout], by rw [hout], ?_⟩
  intro hdue later hle
  rw [hout]
  unfold is_due at hdue ⊢
  cases hsc : site.last_checked with
  | none => rfl
  | some t =>
      rw [hsc] at hdue
      simp only [decide_eq_true_eq] at hdue ⊢
      omega

/-- A site that was already due at time 30. -/
def stale_site : SiteRow :=
  { id := 2, user_id := 42, url := "https://example.org",
    site_name := "example.org", last_hash := some "h0", last_content := some "old",
    check_interval := 10, last_checked := some 5 }

/-- Witness for C10: a 5-character page leaves the stale site untouched and
still due at a later scan time. -/
theorem short_text_check_changes_nothing_witness :
    (check_site_normalized md5_model diff_model 30 stale_site "tiny!").site = stale_site ∧
    (check_site_normalized md5_model diff_model 30 stale_site "tiny!").change = none ∧
    (check_site_normalized md5_model diff_model 30 stale_site "tiny!").errors = [] ∧
    is_due 60 (check_site_normalized md5_model diff_model 30 stale_site "tiny!").site
      = true := by
  have h := short_text_check_changes_nothing md5_model diff_model 30 stale_site "tiny!"
    (by decide)
  exact ⟨h.1, h.2.1, h.2.2.1, h.2.2.2 (by decide) 60 (by decide)⟩
